import Mathlib

/-!
# Verification of the room-extraction geometry engine

A shallow embedding, in Lean 4, of the room-extraction pipeline implemented in
`extract_skeleton.py`, `extract_skeleton_1.py` and `extract_skeleton_2.py`.

Modelling conventions:

* Python floats are modelled by `XFloat`: either NaN, an infinity, or a finite
  rational.  Finite arithmetic is exact rational arithmetic (IEEE-754 rounding
  is abstracted away); the special values follow IEEE semantics for the
  operations the pipeline uses (`min`/`max` folds started at `float('inf')` /
  `float('-inf')`, comparisons that are false on NaN, and arithmetic on
  infinities).
* Third-party library calls (`skimage.measure.label`, `regionprops`,
  `find_contours`, `cv2.approxPolyDP`, `cv2.morphologyEx`, the `cv2` line
  rasterizer, and the shapely geometry kernel) are external collaborators.
  Their outputs are passed in as parameters (`RasterParams`, `GeomOps`); the
  repository's own logic around them is embedded concretely.
* Python lists mutated by `append`/`extend`/`remove` are modelled by folds over
  immutable lists that thread the evolving state; Python `dict`s (insertion
  ordered) are association lists.
-/

/- Batteries marks the arithmetic on `Rat` `@[irreducible]`, which blocks
`decide`-style evaluation of the concrete witnesses below; restore the
ordinary unfolding behaviour for this file (the kernel is unaffected by
reducibility annotations). -/
set_option allowUnsafeReducibility true
attribute [local semireducible] Rat.add Rat.mul Rat.sub Rat.inv

/-! ## Python float model -/

/-- Model of a Python `float`: NaN, `-inf`, a finite value (exact rational), or
`+inf`. -/
inductive XFloat where
  | nan
  | ninf
  | num (q : ℚ)
  | pinf
deriving DecidableEq

namespace XFloat

/-- IEEE `<` as a boolean: any comparison involving NaN is false. -/
def ltb : XFloat → XFloat → Bool
  | nan, _ => false
  | _, nan => false
  | ninf, ninf => false
  | ninf, num _ => true
  | ninf, pinf => true
  | num _, ninf => false
  | num a, num b => decide (a < b)
  | num _, pinf => true
  | pinf, _ => false

/-- IEEE `<=` as a boolean: any comparison involving NaN is false. -/
def leb : XFloat → XFloat → Bool
  | nan, _ => false
  | _, nan => false
  | ninf, _ => true
  | num _, ninf => false
  | num a, num b => decide (a ≤ b)
  | num _, pinf => true
  | pinf, pinf => true
  | pinf, _ => false

/-- Python `min(a, b)`: keeps the current value `a` unless `b < a`. -/
def pymin (a b : XFloat) : XFloat := if ltb b a then b else a

/-- Python `max(a, b)`: keeps the current value `a` unless `a < b`. -/
def pymax (a b : XFloat) : XFloat := if ltb a b then b else a

def neg : XFloat → XFloat
  | nan => nan
  | ninf => pinf
  | num q => num (-q)
  | pinf => ninf

def add : XFloat → XFloat → XFloat
  | nan, _ => nan
  | _, nan => nan
  | ninf, pinf => nan
  | pinf, ninf => nan
  | ninf, _ => ninf
  | _, ninf => ninf
  | pinf, _ => pinf
  | _, pinf => pinf
  | num a, num b => num (a + b)

def sub (a b : XFloat) : XFloat := add a (neg b)

def mul : XFloat → XFloat → XFloat
  | nan, _ => nan
  | _, nan => nan
  | num a, num b => num (a * b)
  | num a, pinf => if a > 0 then pinf else if a < 0 then ninf else nan
  | num a, ninf => if a > 0 then ninf else if a < 0 then pinf else nan
  | pinf, num b => if b > 0 then pinf else if b < 0 then ninf else nan
  | ninf, num b => if b > 0 then ninf else if b < 0 then pinf else nan
  | pinf, pinf => pinf
  | pinf, ninf => ninf
  | ninf, pinf => ninf
  | ninf, ninf => pinf

/-- Float division.  `num a / num 0` is modelled as NaN (CPython raises
`ZeroDivisionError` there; every division in the pipeline is guarded so the
case is unreachable on the paths the theorems below take). -/
def div : XFloat → XFloat → XFloat
  | nan, _ => nan
  | _, nan => nan
  | num a, num b => if b = 0 then nan else num (a / b)
  | num _, pinf => num 0
  | num _, ninf => num 0
  | pinf, num b => if b < 0 then ninf else pinf
  | ninf, num b => if b < 0 then pinf else ninf
  | pinf, pinf => nan
  | pinf, ninf => nan
  | ninf, pinf => nan
  | ninf, ninf => nan

def xabs : XFloat → XFloat
  | nan => nan
  | ninf => pinf
  | num q => num |q|
  | pinf => pinf

/-- Python `int(x)` on a float: truncation toward zero.  On NaN/infinities
CPython raises; we return 0 (unreachable on the embedded paths, where the
truncated value is always finite). -/
def trunc : XFloat → ℤ
  | num q => q.num / (q.den : ℤ)
  | _ => 0

end XFloat

open XFloat

/-- A 2-D point with float coordinates. -/
def FPoint : Type := XFloat × XFloat

instance : DecidableEq FPoint := by unfold FPoint; infer_instance

/-- A room polygon: the ordered vertex list (implicitly closed). -/
def RoomPoly : Type := List FPoint

instance : DecidableEq RoomPoly := by unfold RoomPoly; infer_instance

/-- A wall/door segment: ordered endpoint pair. -/
def Seg : Type := FPoint × FPoint

/-- Drawing extents `(min_x, min_y, max_x, max_y)`. -/
def XExtents : Type := XFloat × XFloat × XFloat × XFloat

instance : DecidableEq XExtents := by unfold XExtents; infer_instance

/-! ## `is_valid_room` (extract_skeleton.py lines 534-555)

The shoelace accumulation `area += x_i*y_j; area -= x_j*y_i` over
`j = (i+1) % len`, then `abs(area)/2 >= min_area`. -/

/-- The signed shoelace accumulator of `is_valid_room`. -/
def shoelace (pts : List FPoint) : XFloat :=
  (List.range pts.length).foldl
    (fun area i =>
      let p := pts.getD i (num 0, num 0)
      let q := pts.getD ((i + 1) % pts.length) (num 0, num 0)
      sub (add area (mul p.1 q.2)) (mul q.1 p.2))
    (num 0)

/-- `is_valid_room(vertices, min_area)`: fewer than 3 vertices is invalid,
otherwise the absolute shoelace area halved must reach `min_area`. -/
def is_valid_room (vertices : List FPoint) (min_area : XFloat) : Bool :=
  if vertices.length < 3 then false
  else leb min_area (div (xabs (shoelace vertices)) (num 2))

/-! ## Reconciliation of the two room sources
(extract_skeleton.py lines 1606-1615)

```
all_rooms = []
if rooms_from_layers:
    all_rooms.extend(rooms_from_layers)
if len(all_rooms) < 3 and rooms_from_walls:
    all_rooms.extend(rooms_from_walls)
```
-/

def reconcile (rooms_from_layers rooms_from_walls : List RoomPoly) : List RoomPoly :=
  let all_rooms : List RoomPoly := []
  let all_rooms :=
    if rooms_from_layers.isEmpty then all_rooms else all_rooms ++ rooms_from_layers
  if all_rooms.length < 3 ∧ ¬ rooms_from_walls.isEmpty then
    all_rooms ++ rooms_from_walls
  else all_rooms

/-! ## Final-extents selection

`extract_walls_and_rooms` (lines 1617-1627) selects room-derived extents,
else wall-derived extents, else a fixed default; `extract_rooms_from_dwg`
(lines 408-419) selects drawing-entity extents, else the extents returned by
`extract_walls_and_rooms`, else the fixed default.  Both are the same
`if A: ... elif B: ... else: default` shape over possibly-`None` values
(a 4-tuple is always truthy, `None` is falsy). -/

/-- One `if a: a elif b: b else: (0,0,1000,1000)` selection step over
optional extents. -/
def choose2 (a b : Option XExtents) : XExtents :=
  match a with
  | some e => e
  | none =>
    match b with
    | some e => e
    | none => (num 0, num 0, num 1000, num 1000)

/-- The composed final-extents policy of one pipeline run:
outer step (lines 408-419) applied to the drawing-entity extents and the
result of the inner step (lines 1617-1627) on room-derived and wall-derived
extents.  The wall-derived extents are always a 4-tuple (never `None`), hence
wrapped in `some`. -/
def final_extents_of_run (extents_from_drawing extents_from_rooms : Option XExtents)
    (extents_from_walls : XExtents) : XExtents :=
  choose2 extents_from_drawing (some (choose2 extents_from_rooms (some extents_from_walls)))

/-- Modelled from the claim (spec §4.7): priority
drawing-entity > wall-derived > room-derived > fixed default, each lower
priority used only when every higher-priority source is unavailable. -/
def claimed_extents_priority (extents_from_drawing extents_from_walls
    extents_from_rooms : Option XExtents) : XExtents :=
  match extents_from_drawing with
  | some e => e
  | none =>
    match extents_from_walls with
    | some e => e
    | none =>
      match extents_from_rooms with
      | some e => e
      | none => (num 0, num 0, num 1000, num 1000)

/-! ## Drawing entities

A closed variant type for the DXF entities the embedded functions inspect.
Coordinates of entity geometry are finite in a parsed drawing but are modelled
as `XFloat` for uniformity.  `polyline` vertices are the 2-D locations already
extracted from the vertex sub-entities. -/

structure HatchPath where
  is_polyline_path : Bool
  vertices : List FPoint
deriving DecidableEq

inductive Entity where
  | line (layer : String) (start stop : FPoint)
  | lwpolyline (layer : String) (points : List FPoint) (is_closed : Bool)
  | polyline (layer : String) (points : List FPoint) (is_closed : Bool)
  | circle (layer : String) (center : FPoint) (radius : XFloat)
  | hatch (layer : String) (paths : List HatchPath)
  | otherEnt (layer : String)
deriving DecidableEq

def Entity.layerName : Entity → String
  | .line l _ _ => l
  | .lwpolyline l _ _ => l
  | .polyline l _ _ => l
  | .circle l _ _ => l
  | .hatch l _ => l
  | .otherEnt l => l

/-! ## `get_drawing_extents` (lines 467-532)

The three branches are, in order: entities with `get_points` (LWPOLYLINE),
CIRCLE (centre ± radius), entities with a `vertices` attribute (POLYLINE).
Plain LINE entities match none of the branches and contribute nothing.
`entity_count` increments once per extracted point (per entity for CIRCLE);
the function returns `None` when the count stays 0. -/

def extentsStep (st : XFloat × XFloat × XFloat × XFloat × ℕ) (p : FPoint) :
    XFloat × XFloat × XFloat × XFloat × ℕ :=
  match st with
  | (mnx, mny, mxx, mxy, c) =>
    (pymin mnx p.1, pymin mny p.2, pymax mxx p.1, pymax mxy p.2, c + 1)

def get_drawing_extents (modelspace : List Entity) : Option XExtents :=
  let st := modelspace.foldl
    (fun st e =>
      match e with
      | .lwpolyline _ pts _ => pts.foldl extentsStep st
      | .circle _ ctr r =>
        match st with
        | (mnx, mny, mxx, mxy, c) =>
          (pymin mnx (sub ctr.1 r), pymin mny (sub ctr.2 r),
           pymax mxx (add ctr.1 r), pymax mxy (add ctr.2 r), c + 1)
      | .polyline _ pts _ => pts.foldl extentsStep st
      | _ => st)
    (pinf, pinf, ninf, ninf, 0)
  match st with
  | (mnx, mny, mxx, mxy, c) => if c = 0 then none else some (mnx, mny, mxx, mxy)

/-! ## Room layers and rooms-from-layers
(extract_skeleton.py lines 1444-1530) -/

/-- Substring test on character lists: Python's `kw in name`.
The empty pattern is a substring of everything (as in Python). -/
def hasSub (p : List Char) : List Char → Bool
  | [] => p.isEmpty
  | c :: rest => p.isPrefixOf (c :: rest) || hasSub p rest

/-- Python `str.lower()` on one character, for the ASCII range; the identity
on every CJK character appearing in the keyword tables. -/
def charLower (c : Char) : Char :=
  if 'A' ≤ c ∧ c ≤ 'Z' then Char.ofNat (c.toNat + 32) else c

/-- Python `name.lower()`, as a character list. -/
def strLower (s : String) : List Char := s.data.map charLower

/-- Count of one entity type in a layer's histogram (`entity_types.get(t, 0)`). -/
def etCount (ets : List (String × ℕ)) (t : String) : ℕ :=
  (ets.lookup t).getD 0

/-- Key-presence test (`t in entity_types`). -/
def hasET (ets : List (String × ℕ)) (t : String) : Bool :=
  (ets.lookup t).isSome

/-- Per-layer metadata assembled by `analyze_layers` (lines 803-859). -/
structure LayerInfo where
  entity_types : List (String × ℕ)
  color : ℤ
  is_on : Bool
  is_frozen : Bool
  linetype : String
deriving DecidableEq

/-- The structural room-layer test shared by `is_room_layer` (lines 927-946)
and the inline copy in `extract_walls_and_rooms` (lines 1453-1463): the layer
has polylines or hatches, is not frozen, and
`(polyline_count > 5 or hatch_count > 0) and
 (line_count == 0 or polyline_count / line_count > 0.5)`. -/
def entityRoomTest (info : LayerInfo) : Bool :=
  (hasET info.entity_types "LWPOLYLINE" || hasET info.entity_types "POLYLINE"
      || hasET info.entity_types "HATCH")
    && !info.is_frozen
    &&
      (let line_count := etCount info.entity_types "LINE"
       let polyline_count :=
         etCount info.entity_types "LWPOLYLINE" + etCount info.entity_types "POLYLINE"
       let hatch_count := etCount info.entity_types "HATCH"
       (decide (5 < polyline_count) || decide (0 < hatch_count))
         && (decide (line_count = 0)
              || decide ((1 : ℚ) / 2 < (polyline_count : ℚ) / (line_count : ℚ))))

/-- The lowercase room keywords of the inline room-layer scan
(lines 1448-1449), duplicates as written in the source. -/
def inlineRoomKws : List String :=
  ["room", "room", "房间", "房", "space", "space", "空间",
   "area", "area", "区域", "arch-room", "a-room", "a-zone"]

/-- The inline room-layer scan of `extract_walls_and_rooms`
(lines 1444-1463). -/
def roomLayersInline (layers_info : List (String × LayerInfo)) : List String :=
  layers_info.foldl
    (fun acc e =>
      if inlineRoomKws.any (fun kw => hasSub kw.data (strLower e.1)) then acc ++ [e.1]
      else if entityRoomTest e.2 then acc ++ [e.1]
      else acc)
    []

/-- Room candidates one entity contributes to `rooms_from_layers`
(lines 1473-1513): closed LWPOLYLINE/POLYLINE with at least 3 points passing
`is_valid_room`, and polyline hatch paths with at least 3 vertices passing
`is_valid_room`. -/
def roomsFromEntity (room_layers : List String) (min_room_area : XFloat) :
    Entity → List RoomPoly
  | .lwpolyline layer pts closed =>
    if layer ∈ room_layers then
      if closed then
        if 3 ≤ pts.length ∧ is_valid_room pts min_room_area = true then [pts] else []
      else []
    else []
  | .polyline layer pts closed =>
    if layer ∈ room_layers then
      if closed then
        if 3 ≤ pts.length ∧ is_valid_room pts min_room_area = true then [pts] else []
      else []
    else []
  | .hatch layer paths =>
    if layer ∈ room_layers then
      paths.flatMap (fun p =>
        if p.is_polyline_path = true ∧ 3 ≤ p.vertices.length then
          if is_valid_room p.vertices min_room_area = true then [p.vertices] else []
        else [])
    else []
  | _ => []

/-- `rooms_from_layers` (lines 1466-1515): empty unless room layers were
identified; otherwise the LWPOLYLINE/POLYLINE/HATCH query in document order. -/
def roomsFromLayers (room_layers : List String) (min_room_area : XFloat)
    (entities : List Entity) : List RoomPoly :=
  if room_layers.isEmpty then []
  else entities.flatMap (roomsFromEntity room_layers min_room_area)

/-- `extents_from_rooms` (lines 1517-1530): a min/max fold over all room
vertices starting from infinities, kept only if every bound moved. -/
def roomsExtents (rooms : List RoomPoly) : Option XExtents :=
  if rooms.isEmpty then none
  else
    match rooms.foldl
        (fun st room =>
          room.foldl
            (fun st p =>
              match st with
              | (mnx, mny, mxx, mxy) =>
                (pymin mnx p.1, pymin mny p.2, pymax mxx p.1, pymax mxy p.2))
            st)
        ((pinf, pinf, ninf, ninf) : XExtents) with
    | (mnx, mny, mxx, mxy) =>
      if ltb mnx pinf = true ∧ ltb mny pinf = true
          ∧ ltb ninf mxx = true ∧ ltb ninf mxy = true then
        some (mnx, mny, mxx, mxy)
      else none

/-! ## Wall collection and rasterizer extents
(extract_skeleton.py lines 1532-1600, 1634-1676) -/

/-- Keywords excluding furniture/equipment layers from the wall scan
(lines 1536-1539); matched against the raw layer name (no lowercasing). -/
def furnitureEquipmentKws : List String :=
  ["家具", "FURN", "furniture", "设备", "EQUIP", "equipment",
   "标注", "TEXT", "text", "ANNO", "annotation", "轴网",
   "GRID", "grid", "灯具", "LIGHT", "卫生", "TOILET",
   "PLUMB", "管道", "PIPE", "电气", "ELEC"]

/-- The excluded-layer set built at lines 1541-1544. -/
def excludeLayersOf (layers_info : List (String × LayerInfo)) : List String :=
  (layers_info.map Prod.fst).filter
    (fun nm => furnitureEquipmentKws.any (fun kw => hasSub kw.data nm.data))

/-- Consecutive-vertex segments of a polyline, plus the closing segment when
the polyline is flagged closed. -/
def consecSegs (pts : List FPoint) (closed : Bool) : List Seg :=
  let base := pts.zip pts.tail
  match closed, pts.getLast?, pts.head? with
  | true, some l, some h => base ++ [(l, h)]
  | _, _, _ => base

/-- The wall/polyline one queried entity contributes to `walls`
(lines 1548-1595); `none` when nothing is appended. -/
def entityWallSegs : Entity → Option (List Seg)
  | .line _ a b => some [(a, b)]
  | .lwpolyline _ pts closed => if 2 ≤ pts.length then some (consecSegs pts closed) else none
  | .polyline _ pts closed => if 2 ≤ pts.length then some (consecSegs pts closed) else none
  | _ => none

/-- `walls` collection of `extract_walls_and_rooms` (lines 1532-1597):
LINE/LWPOLYLINE/POLYLINE entities outside the furniture exclusion set. -/
def collectWalls (layers_info : List (String × LayerInfo)) (entities : List Entity) :
    List (List Seg) :=
  let excl := excludeLayersOf layers_info
  entities.foldl
    (fun acc e =>
      if e.layerName ∈ excl then acc
      else
        match entityWallSegs e with
        | some w => acc ++ [w]
        | none => acc)
    []

/-- The extents computed by `convert_walls_to_image` (lines 1647-1657):
`min`/`max` folds over every segment endpoint, started at
`float('inf')` / `float('-inf')`.  With no walls the starting infinities are
returned unchanged — still a (truthy) 4-tuple, never `None`. -/
def convert_walls_to_image_extents (walls : List (List Seg)) : XExtents :=
  walls.foldl
    (fun acc w =>
      w.foldl
        (fun st s =>
          match st, s with
          | (mnx, mny, mxx, mxy), (a, b) =>
            (pymin (pymin mnx a.1) b.1, pymin (pymin mny a.2) b.2,
             pymax (pymax mxx a.1) b.1, pymax (pymax mxy a.2) b.2))
        acc)
    ((pinf, pinf, ninf, ninf) : XExtents)

/-! ## The raster room detector `identify_rooms`
(extract_skeleton.py lines 1678-1839)

The rasterized image, its morphological closing and the connected-component
labelling (`cv2.morphologyEx`, `skimage.measure.label`, `regionprops`,
`find_contours`, `cv2.approxPolyDP`) are external library calls; their
outputs enter as parameters:

* `L` — the labelled floor image (`labeled_img`), as a function from
  (row, column) to label;
* `props` — the region properties list (`measure.regionprops`);
* `contours` — `measure.find_contours(labeled_img == label, 0.5)` per label,
  points in (row, column) order;
* `approx` — `cv2.approxPolyDP` wrapped by `simplify_polygon`
  (lines 1841-1865).

Everything the repository itself computes around those calls — the pixel-area
thresholds, the border-label set, the four filters, the coordinate
back-mapping, the tolerance choice and the vertex-count checks — is embedded
concretely. -/

/-- One entry of `measure.regionprops(labeled_img)`. -/
structure Region where
  label : ℕ
  area : ℕ
  perimeter : XFloat
deriving DecidableEq

/-- Parameters standing for the external raster/labelling collaborators. -/
structure RasterParams where
  L : ℕ → ℕ → ℕ
  props : List Region
  contours : ℕ → List (List FPoint)
  approx : List FPoint → XFloat → List FPoint

/-- The configuration `identify_rooms` fixes before its filter loop. -/
structure RoomCfg where
  n : ℕ
  extents : XExtents
  minPix : ℤ
  maxPix : ℤ
  L : ℕ → ℕ → ℕ
  contours : ℕ → List (List FPoint)
  approx : List FPoint → XFloat → List FPoint

/-- The exact rational value of the IEEE double `numpy.pi`. -/
def npPi : XFloat := num ((884279719003555 : ℚ) / 281474976710656)

/-- The `edge_labels` set (lines 1757-1768): every positive label appearing on
row 0, row `n-1`, column 0 or column `n-1` of the labelled image.  Modelled as
the list of those labels (membership is all the code uses). -/
def edgeLabelsList (n : ℕ) (L : ℕ → ℕ → ℕ) : List ℕ :=
  ((List.range n).flatMap fun x =>
    (if 0 < L 0 x then [L 0 x] else []) ++ (if 0 < L (n - 1) x then [L (n - 1) x] else []))
    ++
  ((List.range n).flatMap fun y =>
    (if 0 < L y 0 then [L y 0] else []) ++ (if 0 < L y (n - 1) then [L y (n - 1)] else []))

/-- Filter 1 (lines 1781-1787): `area < min_room_area_pixels` or
`area > max_room_area_pixels` (the max is always an `int` — the `None` branch
of its computation also assigns one, so `is not None` always holds). -/
def areaRejected (cfg : RoomCfg) (area : ℕ) : Bool :=
  decide ((area : ℤ) < cfg.minPix) || decide (cfg.maxPix < (area : ℤ))

/-- Filter 3 (lines 1794-1801): only under the guard `perimeter > 0` is the
compactness `4*np.pi*area/(perimeter*perimeter)` computed and compared with
the threshold 0.03 (binary rounding of the literals abstracted to exact
rationals). -/
def shapeRejected (area : ℕ) (perimeter : XFloat) : Bool :=
  if ltb (num 0) perimeter then
    ltb (div (mul (mul (num 4) npPi) (num (area : ℚ))) (mul perimeter perimeter))
      (num (3 / 100))
  else false

/-- `max(contours, key=len)`: the first contour of maximal length. -/
def longestContour (cs : List (List FPoint)) : List FPoint :=
  match cs with
  | [] => []
  | c :: rest => rest.foldl (fun best d => if best.length < d.length then d else best) c

/-- Pixel-to-drawing back-mapping of a contour point `(y, x)` (lines 1811-1815):
`orig = min + (pix / (n - 1)) * (max - min)` per axis, returned as
`(orig_x, orig_y)`. -/
def contourPointBack (cfg : RoomCfg) (p : FPoint) : FPoint :=
  match cfg.extents with
  | (mnx, mny, mxx, mxy) =>
    (add mnx (mul (div p.2 (num ((cfg.n - 1 : ℕ) : ℚ))) (sub mxx mnx)),
     add mny (mul (div p.1 (num ((cfg.n - 1 : ℕ) : ℚ))) (sub mxy mny)))

/-- The contour-extraction and simplification tail of the filter loop
(lines 1804-1833): take the longest contour of the region's mask, map it back
to drawing coordinates, simplify when it has more than 3 vertices (tolerance
2.0 for areas above 5000 pixels, else 1.0), then reject vertex counts below 3
or above 100. -/
def contourStage (cfg : RoomCfg) (r : Region) : Option RoomPoly :=
  match cfg.contours r.label with
  | [] => none
  | c :: cs =>
    let room_poly := (longestContour (c :: cs)).map (contourPointBack cfg)
    let tolerance : XFloat := if 5000 < r.area then num 2 else num 1
    let room_poly := if 3 < room_poly.length then cfg.approx room_poly tolerance else room_poly
    if room_poly.length < 3 then none
    else if 100 < room_poly.length then none
    else some room_poly

/-- One iteration of the `for prop in props` filter loop (lines 1777-1833):
area filter, border filter, shape filter, then the contour stage. -/
def processRegion (cfg : RoomCfg) (r : Region) : Option RoomPoly :=
  if areaRejected cfg r.area then none
  else if r.label ∈ edgeLabelsList cfg.n cfg.L then none
  else if shapeRejected r.area r.perimeter then none
  else contourStage cfg r

/-- The threshold/configuration computation at the head of `identify_rooms`
(lines 1691-1710): `min_room_area_pixels = int((min_room_area/100.0)*(n*n))`,
and `max_room_area_pixels = int(0.6*n*n)` when `max_room_area` is `None`,
else `int((max_room_area/100.0)*(n*n))`. -/
def mkRoomCfg (n : ℕ) (extents : XExtents) (min_room_area : XFloat)
    (max_room_area : Option XFloat) (L : ℕ → ℕ → ℕ)
    (contours : ℕ → List (List FPoint))
    (approx : List FPoint → XFloat → List FPoint) : RoomCfg :=
  { n := n
    extents := extents
    minPix := trunc (mul (div min_room_area (num 100)) (num ((n * n : ℕ) : ℚ)))
    maxPix :=
      match max_room_area with
      | none => trunc (mul (mul (num (3 / 5)) (num (n : ℚ))) (num (n : ℚ)))
      | some m => trunc (mul (div m (num 100)) (num ((n * n : ℕ) : ℚ)))
    L := L
    contours := contours
    approx := approx }

/-- `identify_rooms` (lines 1678-1839), with the external labelling data as
parameters. -/
def identify_rooms (n : ℕ) (extents : XExtents) (min_room_area : XFloat)
    (max_room_area : Option XFloat) (L : ℕ → ℕ → ℕ) (props : List Region)
    (contours : ℕ → List (List FPoint))
    (approx : List FPoint → XFloat → List FPoint) : List RoomPoly :=
  props.filterMap (processRegion (mkRoomCfg n extents min_room_area max_room_area L contours approx))

/-! ## `extract_walls_and_rooms` (lines 1417-1632) and
`extract_rooms_from_dwg` (lines 342-458) -/

/-- `extract_walls_and_rooms`: room layers, rooms from room layers, wall
collection, wall extents, raster rooms (`identify_rooms` with
`max_room_area=None`), reconciliation, and the inner extents selection.
Returns `(walls, all_rooms, final_extents)`. -/
def extract_walls_and_rooms (layers_info : List (String × LayerInfo))
    (entities : List Entity) (min_room_area : XFloat) (img_size : ℕ)
    (rp : RasterParams) : List (List Seg) × List RoomPoly × XExtents :=
  let room_layers := roomLayersInline layers_info
  let rooms_from_layers := roomsFromLayers room_layers min_room_area entities
  let extents_from_rooms := roomsExtents rooms_from_layers
  let walls := collectWalls layers_info entities
  let extents_from_walls := convert_walls_to_image_extents walls
  let rooms_from_walls :=
    identify_rooms img_size extents_from_walls min_room_area none
      rp.L rp.props rp.contours rp.approx
  let all_rooms := reconcile rooms_from_layers rooms_from_walls
  let final_extents := choose2 extents_from_rooms (some extents_from_walls)
  (walls, all_rooms, final_extents)

/-- The room list and final extents produced by one `extract_rooms_from_dwg`
run (lines 405-419, 458): the rooms of `extract_walls_and_rooms` together with
the outer extents selection (drawing-entity extents first, else the extents
returned by `extract_walls_and_rooms`). -/
def extract_rooms_from_dwg (layers_info : List (String × LayerInfo))
    (entities : List Entity) (min_room_area : XFloat) (img_size : ℕ)
    (rp : RasterParams) : List RoomPoly × XExtents :=
  match extract_walls_and_rooms layers_info entities min_room_area img_size rp with
  | (_, rooms, extents_from_walls) =>
    let extents_from_drawing := get_drawing_extents entities
    (rooms, choose2 extents_from_drawing (some extents_from_walls))

/-! ## The layer classifier `identify_wall_layers`
(extract_skeleton.py lines 861-1054) and the keep-set handling of
`clean_layers` (lines 1056-1074) -/

/-- Wall keywords (lines 880-882). -/
def wallKeywords : List String :=
  ["WALL", "wall", "墙", "墙体", "A-WALL", "S-WALL", "WALX", "ARCH-WALL", "墙线",
   "QA", "QZ", "MQ", "QIANG", "BZ", "隔墙", "砖墙", "柱",
   "建-墙", "结构-墙", "建筑-墙", "剪力墙", "承重墙", "隔墙-砖墙", "隔墙—砖墙", "I—隔墙"]

/-- Door/window keywords (lines 885-886). -/
def doorWindowKeywords : List String :=
  ["DOOR", "door", "门", "A-DOOR", "WINDOW", "window", "窗", "A-WINDOW",
   "DOOR_WINDOW", "OPENING", "建-窗", "建-门", "I—平面—门", "I-平面-窗", "门窗"]

/-- Room keywords (lines 889-890). -/
def roomKeywords : List String :=
  ["ROOM", "Room", "room", "房间", "房", "SPACE", "Space", "space", "空间",
   "AREA", "Area", "area", "区域", "ARCH-ROOM", "A-ROOM", "A-ZONE"]

/-- Text/annotation keywords (lines 893-894). -/
def textKeywords : List String :=
  ["TEXT", "DIM", "TITLE", "标注", "文字", "标题", "编号", "图框", "图例",
   "ANNOTATION", "LABEL", "NUMBER", "NOTE", "备注", "MARK", "符号", "SYMBOL"]

/-- Exclusion keywords (lines 897-915). -/
def excludeKeywords : List String :=
  ["FURN", "furniture", "家具", "DESK", "TABLE", "CHAIR", "BED", "SOFA",
   "桌", "椅", "床", "沙发", "柜", "橱", "移动家具", "室-家具", "MOVABLE",
   "EQUIP", "EQUIPMENT", "设备", "洁具", "卫生间", "装饰", "灯", "灯具",
   "电气", "ELEC", "暖通", "HVAC", "给排水", "PLUMBING", "空调", "AC", "AIR",
   "地坪", "踏步", "栏杆", "分隔", "填充", "轮廓线", "面层线", "平顶",
   "CEILING", "天花", "FLOOR", "地面", "STAIR", "楼梯", "RAILING", "扶手",
   "DECORATION", "装饰", "FINISHING", "饰面", "PATTERN", "图案",
   "GRID", "轴网", "COLUMN", "柱", "BEAM", "梁",
   "LANDSCAPE", "景观", "VEGETATION", "植被",
   "SITE", "场地", "LINE", "线条", "LAYOUT", "布局"]

/-- `check_keywords` (lines 918-921): some keyword, lowercased, is a substring
of the lowercased layer name. -/
def checkKeywords (name : String) (kws : List String) : Bool :=
  kws.any (fun kw => hasSub (strLower kw) (strLower name))

/-- `is_text_layer` (lines 923-925). -/
def isTextLayer (name : String) : Bool :=
  checkKeywords name textKeywords || hasSub "文字".data name.data
    || hasSub "编号".data name.data

/-- `is_room_layer` (lines 927-946): room keywords, else the structural test. -/
def isRoomLayer (name : String) (info : LayerInfo) : Bool :=
  checkKeywords name roomKeywords || entityRoomTest info

/-- The evolving classification state: the five layer lists the function
mutates. -/
structure CLState where
  text : List String
  room : List String
  wall : List String
  door : List String
  excluded : List String
deriving DecidableEq

/-- Step 1 (lines 949-960): text layers (also excluded), then room layers. -/
def classifyStep1 (st : CLState) (e : String × LayerInfo) : CLState :=
  if isTextLayer e.1 then
    { st with text := st.text ++ [e.1], excluded := st.excluded ++ [e.1] }
  else if isRoomLayer e.1 e.2 then
    { st with room := st.room ++ [e.1] }
  else st

/-- The structural fallback of step 2 (lines 990-999): many line-ish entities,
few texts, layer on and not frozen. -/
def fallbackWallTest (info : LayerInfo) : Bool :=
  let line_count := etCount info.entity_types "LINE"
    + etCount info.entity_types "LWPOLYLINE" + etCount info.entity_types "POLYLINE"
  let text_count := etCount info.entity_types "TEXT" + etCount info.entity_types "MTEXT"
  decide (20 < line_count)
    && (decide (text_count = 0) || decide ((10 : ℚ) < (line_count : ℚ) / (text_count : ℚ)))
    && info.is_on && !info.is_frozen

/-- Step 2 (lines 963-999): wall (highest priority), door/window, keyword
exclusion, the special-keyword check (whose conditional element degenerates to
the empty string — a universal match — when the name contains 墙), then the
structural fallback. -/
def classifyStep2 (st : CLState) (e : String × LayerInfo) : CLState :=
  if e.1 ∈ st.text then st
  else if hasSub "隔墙".data e.1.data || hasSub "砖墙".data e.1.data
      || checkKeywords e.1 wallKeywords then
    { st with wall := st.wall ++ [e.1] }
  else if checkKeywords e.1 doorWindowKeywords && !isTextLayer e.1 then
    { st with door := st.door ++ [e.1] }
  else if checkKeywords e.1 excludeKeywords && !checkKeywords e.1 wallKeywords then
    { st with excluded := st.excluded ++ [e.1] }
  else if ["灯", "洁具", "栏杆", "踏步", "暖通",
      if hasSub "墙".data e.1.data then "" else "隔断", "家具"].any
        (fun kw => hasSub kw.data e.1.data) then
    { st with excluded := st.excluded ++ [e.1] }
  else if fallbackWallTest e.2 then { st with wall := st.wall ++ [e.1] }
  else { st with excluded := st.excluded ++ [e.1] }

/-- Step 3 (lines 1002-1007): restore mistakenly excluded 隔墙/砖墙 layers,
iterating over a snapshot of the excluded list. -/
def classifyStep3 (st : CLState) : CLState :=
  st.excluded.foldl
    (fun s nm =>
      if hasSub "隔墙".data nm.data || hasSub "砖墙".data nm.data then
        { s with
          excluded := s.excluded.erase nm
          wall := if nm ∈ s.wall then s.wall else s.wall ++ [nm] }
      else s)
    st

/-- Step 4, wall pass (lines 1011-1018): demote wall layers that are text
layers or (non-protected) excluded layers, iterating over a snapshot of the
wall list while the excluded list evolves. -/
def classifyStep4Wall (st : CLState) : CLState :=
  st.wall.foldl
    (fun s nm =>
      if isTextLayer nm
          || (nm ∈ s.excluded && !hasSub "隔墙".data nm.data
              && !hasSub "砖墙".data nm.data) then
        { s with
          wall := s.wall.erase nm
          excluded := if nm ∈ s.excluded then s.excluded else s.excluded ++ [nm] }
      else s)
    st

/-- Step 4, door pass (lines 1021-1031): drop door/window layers that are
excluded, and demote those that are text layers. -/
def classifyStep4Door (st : CLState) : CLState :=
  st.door.foldl
    (fun s nm =>
      if nm ∈ s.excluded then { s with door := s.door.erase nm }
      else if isTextLayer nm then
        { s with
          door := s.door.erase nm
          excluded := if nm ∈ s.excluded then s.excluded else s.excluded ++ [nm] }
      else s)
    st

/-- The classification state after all repair passes. -/
def classifyState (layers_info : List (String × LayerInfo)) : CLState :=
  classifyStep4Door (classifyStep4Wall (classifyStep3
    (layers_info.foldl classifyStep2 (layers_info.foldl classifyStep1
      ⟨[], [], [], [], []⟩))))

/-- `identify_wall_layers` (lines 861-1054): returns
`list(set(wall_layers + door_window_layers))`; the Python set has no defined
order, so it is modelled by deduplication of the concatenation (membership is
identical). -/
def identify_wall_layers (layers_info : List (String × LayerInfo)) : List String :=
  ((classifyState layers_info).wall ++ (classifyState layers_info).door).dedup

/-- The keep-set mutation of `clean_layers` (lines 1070-1072):
`if '0' not in keep_layers: keep_layers.append('0')`. -/
def cleanLayersKeep (keep_layers : List String) : List String :=
  if "0" ∈ keep_layers then keep_layers else keep_layers ++ ["0"]

/-! ## The vector room assembler
(extract_skeleton_1.py lines 53-113; extract_skeleton_2.py has the same
functions)

Shapely geometries and their operations (`intersects`, `difference`,
`is_empty`, `geom_type`, `.geoms`, `unary_union`, `polygonize`) together with
`entity_to_lines` are the external geometry kernel; they enter as the fields
of `GeomOps`.  The loop structure of `remove_doors_from_walls` and
`associate_walls` is embedded concretely over them. -/

/-- The `geom_type` values the code dispatches on. -/
inductive GeomKind where
  | lineString
  | multiLineString
  | otherKind

/-- The abstract shapely operations used by the assembler. -/
structure GeomOps (E G P : Type) where
  toLines : E → Option G
  intersects : G → G → Bool
  difference : G → G → G
  isEmpty : G → Bool
  kind : G → GeomKind
  geoms : G → List G
  unaryUnion : List G → G
  polygonize : G → List P

/-- The inner door loop of `remove_doors_from_walls` (lines 88-93):
subtract each door the current geometry intersects, breaking out as soon as
the geometry becomes empty. -/
def doorCut {E G P : Type} (ops : GeomOps E G P) : G → List G → G
  | geom, [] => geom
  | geom, d :: ds =>
    if ops.intersects geom d then
      let g2 := ops.difference geom d
      if ops.isEmpty g2 then g2 else doorCut ops g2 ds
    else doorCut ops geom ds

/-- The `geom_type` dispatch collecting residues (lines 97-100): a
LineString is kept whole, a MultiLineString contributes its parts, anything
else contributes nothing. -/
def linePieces {E G P : Type} (ops : GeomOps E G P) (geom : G) : List G :=
  match ops.kind geom with
  | .lineString => [geom]
  | .multiLineString => ops.geoms geom
  | .otherKind => []

/-- The residue collection for one wall (lines 94-100): an empty geometry is
skipped (`continue`), otherwise the type dispatch applies. -/
def wallResidues {E G P : Type} (ops : GeomOps E G P) (geom : G) : List G :=
  if ops.isEmpty geom then [] else linePieces ops geom

/-- `remove_doors_from_walls` (lines 77-102): convert the wall and door
entities to lines, cut the doors out of each wall, and collect the residues
in wall order. -/
def remove_doors_from_walls {E G P : Type} (ops : GeomOps E G P)
    (wall_ents door_ents : List E) : List G :=
  let wall_lines := wall_ents.filterMap ops.toLines
  let door_lines := door_ents.filterMap ops.toLines
  wall_lines.flatMap (fun w => wallResidues ops (doorCut ops w door_lines))

/-- `associate_walls` (lines 105-113): union the residue pool and polygonize
it, returning `(polygons, unioned)`. -/
def associate_walls {E G P : Type} (ops : GeomOps E G P) (wall_lines : List G) :
    List P × G :=
  let unioned := ops.unaryUnion wall_lines
  (ops.polygonize unioned, unioned)

/-- Modelled from the spec (§4.3): for each wall line, the successive
geometric set-difference with every door line the current residue intersects
(a residue that is already empty is left unchanged). -/
def specResidueOf {E G P : Type} (ops : GeomOps E G P) (door_lines : List G)
    (w : G) : G :=
  door_lines.foldl
    (fun geom d =>
      if ops.isEmpty geom then geom
      else if ops.intersects geom d then ops.difference geom d else geom)
    w

/-- Modelled from the spec (§4.3): the de-doored segment pool — per wall line
the successive difference with the intersecting door lines; a wall line whose
difference becomes empty (fully consumed by doors) contributes no residue. -/
def specDeDooredPool {E G P : Type} (ops : GeomOps E G P)
    (wall_ents door_ents : List E) : List G :=
  let door_lines := door_ents.filterMap ops.toLines
  (wall_ents.filterMap ops.toLines).flatMap (fun w =>
    let r := specResidueOf ops door_lines w
    if ops.isEmpty r then [] else linePieces ops r)

/-! ## Helper lemmas -/

theorem mem_reconcile {p : RoomPoly} {a b : List RoomPoly}
    (h : p ∈ reconcile a b) : p ∈ a ∨ p ∈ b := by
  unfold reconcile at h
  by_cases ha : a.isEmpty
  · simp [ha] at h
    exact Or.inr h.2
  · simp only [ha, Bool.false_eq_true, if_false, List.nil_append] at h
    split at h
    · rcases List.mem_append.mp h with h1 | h2
      · exact Or.inl h1
      · exact Or.inr h2
    · exact Or.inl h

theorem reconcile_of_three_le {a b : List RoomPoly} (h : 3 ≤ a.length) :
    reconcile a b = a := by
  unfold reconcile
  have hne : a.isEmpty = false := by
    cases a with
    | nil => simp at h
    | cons x xs => rfl
  simp only [hne, Bool.false_eq_true, if_false, List.nil_append]
  rw [if_neg]
  intro hcond
  omega

theorem vertex_gate_some {l poly : RoomPoly}
    (h : (if l.length < 3 then (none : Option RoomPoly)
          else if 100 < l.length then none else some l) = some poly) :
    3 ≤ poly.length ∧ poly.length ≤ 100 := by
  split at h
  · exact absurd h (by simp)
  · split at h
    · exact absurd h (by simp)
    · obtain rfl : l = poly := Option.some_inj.mp h
      omega

theorem contourStage_some_length {cfg : RoomCfg} {r : Region} {poly : RoomPoly}
    (h : contourStage cfg r = some poly) : 3 ≤ poly.length ∧ poly.length ≤ 100 := by
  unfold contourStage at h
  split at h
  · exact absurd h (by simp)
  · simp only at h
    split at h
    · exact vertex_gate_some h
    · exact vertex_gate_some h

theorem processRegion_some_length {cfg : RoomCfg} {r : Region} {poly : RoomPoly}
    (h : processRegion cfg r = some poly) : 3 ≤ poly.length ∧ poly.length ≤ 100 := by
  unfold processRegion at h
  split at h
  · exact absurd h (by simp)
  · split at h
    · exact absurd h (by simp)
    · split at h
      · exact absurd h (by simp)
      · exact contourStage_some_length h

theorem processRegion_some_not_edge {cfg : RoomCfg} {r : Region} {poly : RoomPoly}
    (h : processRegion cfg r = some poly) : r.label ∉ edgeLabelsList cfg.n cfg.L := by
  unfold processRegion at h
  split at h
  · exact absurd h (by simp)
  · split at h
    · exact absurd h (by simp)
    · assumption

theorem processRegion_none_of_edge {cfg : RoomCfg} {r : Region}
    (h : r.label ∈ edgeLabelsList cfg.n cfg.L) : processRegion cfg r = none := by
  simp [processRegion, h]

theorem identify_rooms_length {n : ℕ} {extents : XExtents} {minA : XFloat}
    {mra : Option XFloat} {L : ℕ → ℕ → ℕ} {props : List Region}
    {contours : ℕ → List (List FPoint)} {approx : List FPoint → XFloat → List FPoint}
    {poly : RoomPoly}
    (h : poly ∈ identify_rooms n extents minA mra L props contours approx) :
    3 ≤ poly.length ∧ poly.length ≤ 100 := by
  unfold identify_rooms at h
  obtain ⟨r, _, hr⟩ := List.mem_filterMap.mp h
  exact processRegion_some_length hr

theorem identify_rooms_empty {n : ℕ} {extents : XExtents} {minA : XFloat}
    {mra : Option XFloat} {L : ℕ → ℕ → ℕ} {props : List Region}
    {contours : ℕ → List (List FPoint)} {approx : List FPoint → XFloat → List FPoint}
    (h : ∀ r ∈ props, r.label ∈ edgeLabelsList n L) :
    identify_rooms n extents minA mra L props contours approx = [] := by
  unfold identify_rooms
  rw [List.filterMap_eq_nil_iff]
  intro r hr
  exact processRegion_none_of_edge (h r hr)

theorem edge_mem_of_border {n : ℕ} {L : ℕ → ℕ → ℕ} {i l : ℕ} (hin : i < n)
    (hl : 0 < l)
    (hb : L 0 i = l ∨ L (n - 1) i = l ∨ L i 0 = l ∨ L i (n - 1) = l) :
    l ∈ edgeLabelsList n L := by
  unfold edgeLabelsList
  rw [List.mem_append]
  rcases hb with hb | hb | hb | hb
  · refine Or.inl (List.mem_flatMap.mpr ⟨i, List.mem_range.mpr hin, ?_⟩)
    rw [List.mem_append]
    exact Or.inl (by rw [hb, if_pos hl]; exact List.mem_singleton.mpr rfl)
  · refine Or.inl (List.mem_flatMap.mpr ⟨i, List.mem_range.mpr hin, ?_⟩)
    rw [List.mem_append]
    exact Or.inr (by rw [hb, if_pos hl]; exact List.mem_singleton.mpr rfl)
  · refine Or.inr (List.mem_flatMap.mpr ⟨i, List.mem_range.mpr hin, ?_⟩)
    rw [List.mem_append]
    exact Or.inl (by rw [hb, if_pos hl]; exact List.mem_singleton.mpr rfl)
  · refine Or.inr (List.mem_flatMap.mpr ⟨i, List.mem_range.mpr hin, ?_⟩)
    rw [List.mem_append]
    exact Or.inr (by rw [hb, if_pos hl]; exact List.mem_singleton.mpr rfl)

theorem roomsFromEntity_length {rl : List String} {minA : XFloat} {e : Entity}
    {p : RoomPoly} (h : p ∈ roomsFromEntity rl minA e) : 3 ≤ p.length := by
  unfold roomsFromEntity at h
  cases e with
  | lwpolyline layer pts closed =>
    simp only at h
    split at h
    · split at h
      · split at h
        · rename_i hcond
          rw [List.mem_singleton.mp h]
          exact hcond.1
        · simp at h
      · simp at h
    · simp at h
  | polyline layer pts closed =>
    simp only at h
    split at h
    · split at h
      · split at h
        · rename_i hcond
          rw [List.mem_singleton.mp h]
          exact hcond.1
        · simp at h
      · simp at h
    · simp at h
  | hatch layer paths =>
    simp only at h
    split at h
    · obtain ⟨path, _, hp⟩ := List.mem_flatMap.mp h
      split at hp
      · rename_i hcond
        split at hp
        · rw [List.mem_singleton.mp hp]
          exact hcond.2
        · simp at hp
      · simp at hp
    · simp at h
  | line layer a b => simp at h
  | circle layer c r => simp at h
  | otherEnt layer => simp at h

theorem specResidueOf_of_empty {E G P : Type} (ops : GeomOps E G P) {g : G}
    (hg : ops.isEmpty g = true) (ds : List G) : specResidueOf ops ds g = g := by
  induction ds with
  | nil => rfl
  | cons d ds ih =>
    unfold specResidueOf
    rw [List.foldl_cons, if_pos hg]
    exact ih

theorem doorCut_cons {E G P : Type} (ops : GeomOps E G P) (g d : G) (ds : List G) :
    doorCut ops g (d :: ds) =
      if ops.intersects g d = true then
        (if ops.isEmpty (ops.difference g d) = true then ops.difference g d
         else doorCut ops (ops.difference g d) ds)
      else doorCut ops g ds := rfl

theorem specResidueOf_cons {E G P : Type} (ops : GeomOps E G P) (d : G) (ds : List G)
    (g : G) :
    specResidueOf ops (d :: ds) g =
      specResidueOf ops ds
        (if ops.isEmpty g = true then g
         else if ops.intersects g d = true then ops.difference g d else g) := rfl

theorem doorCut_eq_specResidueOf {E G P : Type} (ops : GeomOps E G P)
    (hlaw : ∀ g d, ops.isEmpty g = true → ops.intersects g d = false)
    (ds : List G) (g : G) : doorCut ops g ds = specResidueOf ops ds g := by
  induction ds generalizing g with
  | nil => rfl
  | cons d ds ih =>
    rw [doorCut_cons, specResidueOf_cons]
    by_cases hg : ops.isEmpty g = true
    · rw [if_pos hg, hlaw g d hg]
      simp only [Bool.false_eq_true, if_false]
      exact ih g
    · rw [if_neg hg]
      by_cases hi : ops.intersects g d = true
      · rw [if_pos hi, if_pos hi]
        by_cases he : ops.isEmpty (ops.difference g d) = true
        · rw [if_pos he]
          exact (specResidueOf_of_empty ops he ds).symm
        · rw [if_neg he]
          exact ih (ops.difference g d)
      · rw [if_neg hi, if_neg hi]
        exact ih g

/-! ## Claims -/

/-- C1: For every list of layer-sourced (vector) rooms and every list of
raster-detected rooms, the reconciliation step in `extract_walls_and_rooms`
returns exactly the vector rooms when the vector list has 3 or more entries;
raster rooms are appended only when the vector list has fewer than 3 entries
(and then the result is exactly vector ++ raster). -/
theorem claim_C1 (rooms_from_layers rooms_from_walls : List RoomPoly) :
    (3 ≤ rooms_from_layers.length →
      reconcile rooms_from_layers rooms_from_walls = rooms_from_layers)
    ∧ (reconcile rooms_from_layers rooms_from_walls = rooms_from_layers
       ∨ (rooms_from_layers.length < 3
          ∧ reconcile rooms_from_layers rooms_from_walls
              = rooms_from_layers ++ rooms_from_walls)) := by
  refine ⟨reconcile_of_three_le, ?_⟩
  by_cases h3 : 3 ≤ rooms_from_layers.length
  · exact Or.inl (reconcile_of_three_le h3)
  · refine Or.inr ⟨by omega, ?_⟩
    unfold reconcile
    by_cases hr : rooms_from_walls.isEmpty
    · obtain rfl : rooms_from_walls = [] := List.isEmpty_iff.mp hr
      simp only [List.isEmpty_nil, not_true_eq_false, and_false, if_false, List.append_nil]
      split <;> simp_all [List.isEmpty_iff]
    · by_cases hv : rooms_from_layers.isEmpty
      · obtain rfl : rooms_from_layers = [] := List.isEmpty_iff.mp hv
        simp [hr]
      · rw [Bool.not_eq_true] at hv
        simp only [hv, Bool.false_eq_true, if_false, List.nil_append]
        rw [if_pos ⟨by omega, hr⟩]

/-- Witness for C1 at the claim's own concrete instance: 5 vector-sourced
rooms and 10 raster-sourced rooms reconcile to the 5 vector rooms only. -/
def vRooms5 : List RoomPoly :=
  [[(num 0, num 0)], [(num 1, num 0)], [(num 2, num 0)],
   [(num 3, num 0)], [(num 4, num 0)]]

def rRooms10 : List RoomPoly := List.replicate 10 [(num 9, num 9)]

theorem claim_C1_witness :
    (3 : ℕ) ≤ vRooms5.length ∧ reconcile vRooms5 rRooms10 = vRooms5 :=
  ⟨by decide, (claim_C1 vRooms5 rRooms10).1 (by decide)⟩

/-- C2 counterexample: with no drawing-entity extents, room-derived extents
`(1,1,2,2)` and wall-derived extents `(0,0,4,4)`, the pipeline returns the
room-derived extents, while the claimed priority
(drawing > wall-derived > room-derived > default) would return the
wall-derived extents. -/
theorem claim_C2_counterexample :
    final_extents_of_run none (some (num 1, num 1, num 2, num 2))
        (num 0, num 0, num 4, num 4) = ((num 1, num 1, num 2, num 2) : XExtents)
    ∧ claimed_extents_priority none (some ((num 0, num 0, num 4, num 4) : XExtents))
        (some ((num 1, num 1, num 2, num 2) : XExtents))
        = ((num 0, num 0, num 4, num 4) : XExtents)
    ∧ ((num 1, num 1, num 2, num 2) : XExtents) ≠ (num 0, num 0, num 4, num 4) :=
  ⟨rfl, rfl, by decide⟩

/-- C2 (amended): the final extents of a pipeline run are chosen by the
priority order drawing-entity extents first, then room-derived extents, then
wall-derived extents; the wall-derived tuple is always present (it is a
4-tuple even for empty walls), so the fixed default `(0,0,1000,1000)` of the
two selection sites is unreachable in the composed run.  The last conjunct
ties the composed policy to the embedded pipeline. -/
theorem claim_C2 :
    (∀ (d r : Option XExtents) (w e : XExtents),
        (d = some e → final_extents_of_run d r w = e)
        ∧ (d = none → r = some e → final_extents_of_run d r w = e)
        ∧ (d = none → r = none → final_extents_of_run d r w = w))
    ∧ ∀ (li : List (String × LayerInfo)) (ents : List Entity) (minA : XFloat)
        (n : ℕ) (rp : RasterParams),
        (extract_rooms_from_dwg li ents minA n rp).2
          = final_extents_of_run (get_drawing_extents ents)
              (roomsExtents (roomsFromLayers (roomLayersInline li) minA ents))
              (convert_walls_to_image_extents (collectWalls li ents)) := by
  constructor
  · intro d r w e
    refine ⟨?_, ?_, ?_⟩ <;> intros <;> subst_vars <;> rfl
  · intro li ents minA n rp
    rfl

theorem claim_C2_witness :
    final_extents_of_run (some (num 5, num 5, num 6, num 6)) none
        (num 0, num 0, num 4, num 4) = ((num 5, num 5, num 6, num 6) : XExtents)
    ∧ final_extents_of_run none (some (num 1, num 1, num 2, num 2))
        (num 0, num 0, num 4, num 4) = ((num 1, num 1, num 2, num 2) : XExtents)
    ∧ final_extents_of_run none none (num 0, num 0, num 4, num 4)
        = ((num 0, num 0, num 4, num 4) : XExtents) :=
  ⟨(claim_C2.1 _ _ _ _).1 rfl, (claim_C2.1 _ _ _ _).2.1 rfl rfl,
   (claim_C2.1 none none (num 0, num 0, num 4, num 4)
     (num 0, num 0, num 4, num 4)).2.2 rfl rfl⟩

/-- C5: the raster area filter is boundary-inclusive: a component of pixel
area exactly `min_room_area_pixels - 1` is rejected, one of exactly
`min_room_area_pixels` passes the area filter, and one strictly above
`max_room_area_pixels` is rejected. -/
theorem claim_C5 (cfg : RoomCfg) (r : Region) :
    ((r.area : ℤ) = cfg.minPix - 1 → processRegion cfg r = none)
    ∧ ((r.area : ℤ) = cfg.minPix → cfg.minPix ≤ cfg.maxPix →
        areaRejected cfg r.area = false)
    ∧ (cfg.maxPix < (r.area : ℤ) → processRegion cfg r = none) := by
  refine ⟨?_, ?_, ?_⟩
  · intro h
    have ha : areaRejected cfg r.area = true := by
      unfold areaRejected
      simp only [Bool.or_eq_true, decide_eq_true_eq]
      exact Or.inl (by omega)
    unfold processRegion
    rw [if_pos ha]
  · intro h1 h2
    unfold areaRejected
    simp only [Bool.or_eq_false_iff, decide_eq_false_iff_not]
    constructor <;> omega
  · intro h
    have ha : areaRejected cfg r.area = true := by
      unfold areaRejected
      simp only [Bool.or_eq_true, decide_eq_true_eq]
      exact Or.inr (by omega)
    unfold processRegion
    rw [if_pos ha]

/-- A small concrete filter configuration for the C5 witness. -/
def cfgC5 : RoomCfg :=
  { n := 0, extents := (num 0, num 0, num 0, num 0), minPix := 2, maxPix := 5,
    L := fun _ _ => 0, contours := fun _ => [], approx := fun p _ => p }

theorem claim_C5_witness :
    processRegion cfgC5 ⟨1, 1, num 0⟩ = none
    ∧ areaRejected cfgC5 2 = false
    ∧ processRegion cfgC5 ⟨1, 6, num 0⟩ = none :=
  ⟨(claim_C5 cfgC5 ⟨1, 1, num 0⟩).1 (by decide),
   (claim_C5 cfgC5 ⟨1, 2, num 0⟩).2.1 (by decide) (by decide),
   (claim_C5 cfgC5 ⟨1, 6, num 0⟩).2.2 (by decide)⟩

/-- C10: the compactness division is performed only under the guard
`perimeter > 0` (whenever the shape filter rejects, the perimeter was
positive), and a component with perimeter 0 bypasses the compactness test
entirely: if it passes the area and border filters it reaches the contour
stage, unrejected by the shape filter. -/
theorem claim_C10 :
    (∀ (area : ℕ) (perimeter : XFloat),
        shapeRejected area perimeter = true → ltb (num 0) perimeter = true)
    ∧ ∀ (cfg : RoomCfg) (r : Region), r.perimeter = num 0 →
        areaRejected cfg r.area = false →
        r.label ∉ edgeLabelsList cfg.n cfg.L →
        processRegion cfg r = contourStage cfg r := by
  constructor
  · intro area perimeter h
    unfold shapeRejected at h
    by_cases hp : ltb (num 0) perimeter = true
    · exact hp
    · rw [if_neg hp] at h
      exact absurd h (by simp)
  · intro cfg r hper harea hedge
    unfold processRegion
    rw [harea]
    simp only [Bool.false_eq_true, if_false]
    rw [if_neg hedge, hper]
    have hs : shapeRejected r.area (num 0) = false := by
      unfold shapeRejected
      rw [if_neg (by decide)]
    rw [hs]
    simp only [Bool.false_eq_true, if_false]

/-- The concrete raster configuration shared by the C4/C8/C10 witnesses:
a 3×3 labelled image whose centre pixel carries label 1 and whose border
carries label 2, one region of label 1, area 1 and perimeter 0, and one
3-point contour for it. -/
def cfgW : RoomCfg :=
  mkRoomCfg 3 (num 0, num 0, num 2, num 2) (num 1) none
    (fun i j => if i = 1 ∧ j = 1 then 1 else 2)
    (fun l => if l = 1 then [[(num 1, num 1), (num 1, num 2), (num 2, num 1)]] else [])
    (fun p _ => p)

def rW : Region := ⟨1, 1, num 0⟩

theorem claim_C10_witness :
    ltb (num 0) (num 1000) = true
    ∧ processRegion cfgW rW = contourStage cfgW rW :=
  ⟨claim_C10.1 1 (num 1000) (by decide),
   claim_C10.2 cfgW rW rfl (by decide) (by decide)⟩

/-- C4: no polygon returned by the raster room detector corresponds to a
connected component with a pixel on row 0, row `n-1`, column 0 or column
`n-1` of the labelled floor mask: every polygon in the output comes from a
region whose (positive) label appears at no border position.  The well-
formedness hypothesis records that `regionprops` labels are positive. -/
theorem claim_C4 (n : ℕ) (extents : XExtents) (minA : XFloat)
    (mra : Option XFloat) (L : ℕ → ℕ → ℕ) (props : List Region)
    (contours : ℕ → List (List FPoint))
    (approx : List FPoint → XFloat → List FPoint)
    (hpos : ∀ r ∈ props, 0 < r.label) :
    ∀ poly ∈ identify_rooms n extents minA mra L props contours approx,
      ∃ r ∈ props,
        processRegion (mkRoomCfg n extents minA mra L contours approx) r = some poly
        ∧ ∀ i, i < n →
            L 0 i ≠ r.label ∧ L (n - 1) i ≠ r.label
            ∧ L i 0 ≠ r.label ∧ L i (n - 1) ≠ r.label := by
  intro poly hmem
  unfold identify_rooms at hmem
  obtain ⟨r, hr, hsome⟩ := List.mem_filterMap.mp hmem
  refine ⟨r, hr, hsome, ?_⟩
  intro i hi
  have hnedge := processRegion_some_not_edge hsome
  refine ⟨?_, ?_, ?_, ?_⟩ <;>
    · intro hb
      exact hnedge (edge_mem_of_border hi (hpos r hr) (by tauto))

theorem claim_C4_witness :
    ∃ r ∈ [rW],
      processRegion cfgW r = some [(num 1, num 1), (num 2, num 1), (num 1, num 2)]
      ∧ ∀ i, i < 3 →
          cfgW.L 0 i ≠ r.label ∧ cfgW.L (3 - 1) i ≠ r.label
          ∧ cfgW.L i 0 ≠ r.label ∧ cfgW.L i (3 - 1) ≠ r.label :=
  claim_C4 3 (num 0, num 0, num 2, num 2) (num 1) none cfgW.L [rW]
    cfgW.contours cfgW.approx (by decide)
    [(num 1, num 1), (num 2, num 1), (num 1, num 2)] (by decide)

/-- C8: every polygon returned by the raster room detector has between 3 and
100 vertices inclusive after simplification; vertex counts below 3 or above
100 are rejected and never appear in the output. -/
theorem claim_C8 (n : ℕ) (extents : XExtents) (minA : XFloat)
    (mra : Option XFloat) (L : ℕ → ℕ → ℕ) (props : List Region)
    (contours : ℕ → List (List FPoint))
    (approx : List FPoint → XFloat → List FPoint) :
    ∀ poly ∈ identify_rooms n extents minA mra L props contours approx,
      3 ≤ poly.length ∧ poly.length ≤ 100 := by
  intro poly hmem
  exact identify_rooms_length hmem

theorem claim_C8_witness :
    3 ≤ ([(num 1, num 1), (num 2, num 1), (num 1, num 2)] : RoomPoly).length
    ∧ ([(num 1, num 1), (num 2, num 1), (num 1, num 2)] : RoomPoly).length ≤ 100 :=
  claim_C8 3 (num 0, num 0, num 2, num 2) (num 1) none cfgW.L [rW]
    cfgW.contours cfgW.approx
    [(num 1, num 1), (num 2, num 1), (num 1, num 2)] (by decide)

/-- C9: every room polygon returned by `extract_walls_and_rooms` — whether
sourced from room layers or from raster detection — has at least 3
vertices. -/
theorem claim_C9 (layers_info : List (String × LayerInfo)) (entities : List Entity)
    (minA : XFloat) (img_size : ℕ) (rp : RasterParams) :
    ∀ room ∈ (extract_walls_and_rooms layers_info entities minA img_size rp).2.1,
      3 ≤ room.length := by
  intro room hmem
  unfold extract_walls_and_rooms at hmem
  simp only at hmem
  rcases mem_reconcile hmem with h | h
  · unfold roomsFromLayers at h
    split at h
    · exact absurd h (List.not_mem_nil room)
    · obtain ⟨e, _, he⟩ := List.mem_flatMap.mp h
      exact roomsFromEntity_length he
  · exact (identify_rooms_length h).1

/-- A drawing with one closed rectangle on a room layer, for the C9 witness. -/
def liRoomW : List (String × LayerInfo) :=
  [("ROOM", ⟨[("LWPOLYLINE", 6)], 7, true, false, "CONTINUOUS"⟩)]

def roomEntW : Entity :=
  Entity.lwpolyline "ROOM"
    [(num 0, num 0), (num 10, num 0), (num 10, num 10), (num 0, num 10)] true

/-- Raster parameters with no regions at all (the raster detector then
returns no rooms). -/
def rpEmptyW : RasterParams := ⟨fun _ _ => 0, [], fun _ => [], fun p _ => p⟩

theorem claim_C9_witness :
    3 ≤ ([(num 0, num 0), (num 10, num 0), (num 10, num 10),
          (num 0, num 10)] : RoomPoly).length :=
  claim_C9 liRoomW [roomEntW] (num 1) 2 rpEmptyW
    [(num 0, num 0), (num 10, num 0), (num 10, num 10), (num 0, num 10)] (by decide)

/-- C3: for a drawing containing no entities, the pipeline returns an empty
room list, but NOT the fixed default extents: `convert_walls_to_image` folds
over no segments and returns `(inf, inf, -inf, -inf)`, a truthy tuple that
pre-empts both default branches, so the final extents are the infinities.
The hypothesis captures that on the all-floor mask of an empty drawing every
labelled region reaches the image border (its label is in the border-label
set). -/
theorem claim_C3 (layers_info : List (String × LayerInfo)) (minA : XFloat)
    (img_size : ℕ) (rp : RasterParams)
    (hedge : ∀ r ∈ rp.props, r.label ∈ edgeLabelsList img_size rp.L) :
    extract_rooms_from_dwg layers_info [] minA img_size rp
        = ([], (pinf, pinf, ninf, ninf))
    ∧ ((pinf, pinf, ninf, ninf) : XExtents) ≠ (num 0, num 0, num 1000, num 1000) := by
  constructor
  · unfold extract_rooms_from_dwg extract_walls_and_rooms
    have hraster :
        identify_rooms img_size (convert_walls_to_image_extents [])
          minA none rp.L rp.props rp.contours rp.approx = [] :=
      identify_rooms_empty hedge
    simp only [roomsFromLayers, List.flatMap_nil, ite_self, collectWalls,
      List.foldl_nil, hraster]
    rfl
  · decide

/-- Raster parameters for the C3 witness: the labelling of the all-floor mask
of an empty drawing — every pixel carries label 1, one region. -/
def rpAllFloorW : RasterParams :=
  ⟨fun _ _ => 1, [⟨1, 9, num 0⟩], fun _ => [], fun p _ => p⟩

theorem claim_C3_witness :
    extract_rooms_from_dwg [] [] (num 1) 3 rpAllFloorW
        = ([], (pinf, pinf, ninf, ninf))
    ∧ ((pinf, pinf, ninf, ninf) : XExtents) ≠ (num 0, num 0, num 1000, num 1000) :=
  claim_C3 [] (num 1) 3 rpAllFloorW (by decide)

/-- C6: the vector room assembler subtracts from each wall line, successively,
every door line the current residue intersects; a wall line whose difference
becomes empty contributes no residue to the pool; and the closed polygons of
`associate_walls` are exactly the polygonization of the union of the
remaining residues.  The hypothesis is the shapely law that an empty geometry
intersects nothing, under which the early-`break` loop of the source equals
the spec-modelled fold. -/
theorem claim_C6 {E G P : Type} (ops : GeomOps E G P)
    (hlaw : ∀ g d, ops.isEmpty g = true → ops.intersects g d = false)
    (wall_ents door_ents : List E) :
    remove_doors_from_walls ops wall_ents door_ents
        = specDeDooredPool ops wall_ents door_ents
    ∧ (associate_walls ops (remove_doors_from_walls ops wall_ents door_ents)).1
        = ops.polygonize
            (ops.unaryUnion (specDeDooredPool ops wall_ents door_ents)) := by
  have hmain : remove_doors_from_walls ops wall_ents door_ents
      = specDeDooredPool ops wall_ents door_ents := by
    unfold remove_doors_from_walls specDeDooredPool
    simp only []
    apply List.flatMap_congr
    intro w _
    rw [doorCut_eq_specResidueOf ops hlaw]
    rfl
  exact ⟨hmain, by rw [hmain]; rfl⟩

/-- A concrete geometry kernel over finite point sets (lists of naturals) for
the C6 witness: intersection is a shared element, difference is filtering,
every geometry is a LineString. -/
def opsW : GeomOps (List ℕ) (List ℕ) ℕ :=
  { toLines := some
    intersects := fun a b => a.any b.contains
    difference := fun a b => a.filter (fun x => !b.contains x)
    isEmpty := List.isEmpty
    kind := fun _ => GeomKind.lineString
    geoms := fun g => [g]
    unaryUnion := List.flatten
    polygonize := fun g => [g.length] }

theorem opsW_law (g d : List ℕ) : opsW.isEmpty g = true → opsW.intersects g d = false := by
  intro h
  obtain rfl : g = [] := List.isEmpty_iff.mp h
  rfl

theorem claim_C6_witness :
    remove_doors_from_walls opsW [[1, 2, 3], [4]] [[2], [4]]
        = specDeDooredPool opsW [[1, 2, 3], [4]] [[2], [4]]
    ∧ (associate_walls opsW (remove_doors_from_walls opsW [[1, 2, 3], [4]] [[2], [4]])).1
        = opsW.polygonize
            (opsW.unaryUnion (specDeDooredPool opsW [[1, 2, 3], [4]] [[2], [4]])) :=
  claim_C6 opsW opsW_law [[1, 2, 3], [4]] [[2], [4]]

/-- C7 counterexample: a drawing whose only layer is the default layer "0"
(with no entities).  "0" matches no wall or door/window rule, falls through
the structural fallback into the excluded list, and the keep-set returned by
`identify_wall_layers` is empty — it does not contain "0".  ("0" is only
added later, by `clean_layers`.) -/
def layer0Info : LayerInfo := ⟨[], 7, true, false, "CONTINUOUS"⟩

theorem claim_C7_counterexample :
    "0" ∉ identify_wall_layers [("0", layer0Info)] := by decide

/-- C7 (amended): the keep-set returned by the layer classifier
`identify_wall_layers` is exactly the union of the wall layers and the
door-window layers it computed; the default layer "0" is guaranteed only
after `clean_layers` appends it to the keep-set when missing. -/
theorem claim_C7 (layers_info : List (String × LayerInfo)) (nm : String) :
    (nm ∈ identify_wall_layers layers_info
      ↔ nm ∈ (classifyState layers_info).wall ∨ nm ∈ (classifyState layers_info).door)
    ∧ "0" ∈ cleanLayersKeep (identify_wall_layers layers_info) := by
  constructor
  · unfold identify_wall_layers
    rw [List.mem_dedup, List.mem_append]
  · unfold cleanLayersKeep
    split
    · assumption
    · exact List.mem_append.mpr (Or.inr (List.mem_singleton.mpr rfl))
